import Mathlib

/-!
Verification of the MySQL X Protocol engine core of mysql-connector-cpp.

This file gives a shallow embedding, in Lean 4, of the protocol engine
declared in the repository headers (`Op_rcv`, `Op_base`, `Protocol_impl`,
`Message_dispatcher`, the framing constants, the `Safe_prc` wrappers and
`BaseResult`), and proves the specification claims about it.

Modelling conventions:
- machine integers become `Nat` / `Int` (no overflow is relevant to the
  claims proved here);
- raw byte sequences become `List Nat`;
- processor callbacks are observed as a trace of `Call` events, so that
  "callback X fires with arguments a" is the event `X a` in the trace;
- C++ `NULL` pointers become `Option.none`;
- member functions become pure functions taking the object state and
  returning results and updated state.

Definitions are transcribed from the source header; a few bodies that the
repository only declares (the receive driver loop, `Op_rcv::resume`, the
`MSG_LIST` table, header validation) are modelled from the specification
and say so in their doc comments.
-/

/-- Message type tag of an X Protocol `Error` frame.  The numeric values of
`msg_type` constants come from the generated protocol schema header, which
is not part of the repository sources; the development only relies on the
`Error` and `Notice` tags being distinct. -/
def msg_type.Error : Nat := 1

/-- Message type tag of an X Protocol `Notice` frame. -/
def msg_type.Notice : Nat := 11

/-- Severity value passed to the error processor.  The source comments:
there are 2 error severities, 0 = ERROR and 1 = FATAL, and both are
reported to the processor as 2 = ERROR. -/
def severity.ERROR : Nat := 2

/-- View of a decoded protocol message.  In the C++ source, `process_msg`
receives a `Message&` and `static_cast`s it to `Mysqlx::Error` or
`Mysqlx::Notice::Frame` according to the frame's type tag; this structure
carries the fields those two views expose, plus nothing for other message
types (whose content is handled by `do_process_msg` overrides). -/
structure Message where
  errCode : Nat
  errSqlState : String
  errMsg : String
  noticeType : Nat
  noticeScope : Nat
  noticePayload : List Nat
deriving DecidableEq

/-- Observable processor callbacks made while processing one message.
`errorCb` is `Error_processor::error(code, severity, sqlstate, msg)`,
`noticeCb` is `Error_processor::notice(type, scope, payload)`, and
`doProcessMsgCb t` records that the virtual `do_process_msg(t, msg)`
hook was invoked (its default body does nothing; subclasses override it). -/
inductive Call where
  | errorCb (code : Nat) (sev : Nat) (sqlState : String) (text : String)
  | noticeCb (ntype : Nat) (scope : Nat) (payload : List Nat)
  | doProcessMsgCb (t : Nat)
deriving DecidableEq

/-- Embedding of `Op_rcv::process_msg(type, msg)` (source: `result.h`,
`inline void Op_rcv::process_msg`).  The source tests the member
`m_msg_type` (the decoded frame's type, passed here as `mMsgType`):
a Notice is forwarded to the `notice` callback, an Error is forwarded to
the `error` callback with severity 2, and any other message is delegated
to the virtual `do_process_msg`.  The result is the trace of callbacks. -/
def Op_rcv.process_msg (mMsgType : Nat) (msg : Message) : List Call :=
  if msg_type.Notice = mMsgType then
    [Call.noticeCb msg.noticeType msg.noticeScope msg.noticePayload]
  else if msg_type.Error = mMsgType then
    [Call.errorCb msg.errCode severity.ERROR msg.errSqlState msg.errMsg]
  else
    [Call.doProcessMsgCb mMsgType]

/-- Result values of `Op_rcv::next_msg` (source enum `Next_msg`). -/
inductive Next_msg where
  | EXPECTED
  | UNEXPECTED
  | STOP
deriving DecidableEq

/-- Default body of the virtual `Op_rcv::do_next_msg(msg_type_t)`:
`{ return UNEXPECTED; }`. -/
def Op_rcv.do_next_msg_default : Nat → Next_msg :=
  fun _ => Next_msg.UNEXPECTED

/-- Embedding of `Op_rcv::next_msg(type)`.  The virtual `do_next_msg`
override of the concrete receive variant is passed as the function `dnm`. -/
def Op_rcv.next_msg (dnm : Nat → Next_msg) (t : Nat) : Next_msg :=
  if t = msg_type.Error then Next_msg.EXPECTED
  else if t = msg_type.Notice then Next_msg.EXPECTED
  else dnm t

/-- Default body of the virtual `Op_rcv::do_process_next()`:
`{ return false; }`. -/
def Op_rcv.do_process_next_default : Nat → Bool :=
  fun _ => false

/-- Embedding of `Op_rcv::process_next()`.  The member `m_msg_type` (type
of the message just processed) is passed explicitly, and the virtual
`do_process_next` override of the concrete variant is the function `dpn`
(applied to the current message type, which is the state it may consult). -/
def Op_rcv.process_next (dpn : Nat → Bool) (mMsgType : Nat) : Bool :=
  if msg_type.Notice = mMsgType then true
  else if msg_type.Error = mMsgType then false
  else dpn mMsgType

/-- One wire frame as seen by the receive operation: the decoded type tag
and the decoded message. -/
structure Frame where
  ftype : Nat
  msg : Message
deriving DecidableEq

/-- Modelled from the spec: the per-frame driver loop of `Op_rcv`
(`do_read_msg` / `finish` / `do_cont`, declared in the header but with
bodies not under `src/`).  Per the specification of the receive state
machine, each incoming frame is read and handed to `process_msg`, then
`process_next()` decides whether to loop to the next frame; when it
returns false the current receive stops and the operation reports
completion (`is_done`, which the source defines as `is_completed`).
Input is the list of frames available on the stream; the result is the
trace of processor callbacks and the final `is_done` flag (`false` when
the stream is exhausted with the operation still waiting for a frame). -/
def runRecv (dpn : Nat → Bool) : List Frame → List Call × Bool
  | [] => ([], false)
  | f :: rest =>
    if Op_rcv.process_next dpn f.ftype then
      (Op_rcv.process_msg f.ftype f.msg ++ (runRecv dpn rest).1,
       (runRecv dpn rest).2)
    else
      (Op_rcv.process_msg f.ftype f.msg, true)

/-- C1: processing a frame of type `Error` delivers exactly one `error`
callback carrying the message's code, severity ERROR, SQL state and text,
and does not invoke `do_process_msg`; processing a frame of type `Notice`
delivers exactly one `notice(type, scope, payload)` callback and likewise
does not invoke `do_process_msg`. -/
theorem C1_process_msg_error_notice (msg : Message) :
    Op_rcv.process_msg msg_type.Error msg
      = [Call.errorCb msg.errCode severity.ERROR msg.errSqlState msg.errMsg]
    ∧ Op_rcv.process_msg msg_type.Notice msg
      = [Call.noticeCb msg.noticeType msg.noticeScope msg.noticePayload]
    ∧ (∀ t, Call.doProcessMsgCb t ∉ Op_rcv.process_msg msg_type.Error msg)
    ∧ (∀ t, Call.doProcessMsgCb t ∉ Op_rcv.process_msg msg_type.Notice msg) := by
  refine ⟨?_, ?_, ?_, ?_⟩ <;>
    simp [Op_rcv.process_msg, msg_type.Error, msg_type.Notice]

/-- C3: `process_next` returns true after a Notice; for any type other
than Notice and Error it returns the value of the `do_process_next`
override, whose default body returns false; consequently, with the
default override, a receive processes any run of leading notices and
stops right after the first non-notice message (so a Notice is never the
message at which the foreground receive stops). -/
theorem C3_process_next (dpn : Nat → Bool) (t : Nat) :
    Op_rcv.process_next dpn msg_type.Notice = true
    ∧ (t ≠ msg_type.Notice → t ≠ msg_type.Error →
        Op_rcv.process_next dpn t = dpn t)
    ∧ Op_rcv.do_process_next_default t = false
    ∧ (∀ (notices rest : List Frame) (msg : Message),
        (∀ f ∈ notices, f.ftype = msg_type.Notice) → t ≠ msg_type.Notice →
        runRecv Op_rcv.do_process_next_default
            (notices ++ (Frame.mk t msg) :: rest)
          = ((runRecv Op_rcv.do_process_next_default notices).1
              ++ Op_rcv.process_msg t msg, true)) := by
  refine ⟨?_, ?_, rfl, ?_⟩
  · simp [Op_rcv.process_next]
  · intro h1 h2
    simp [Op_rcv.process_next, Ne.symm h1, Ne.symm h2]
  · intro notices rest msg hall ht
    have hstop : Op_rcv.process_next Op_rcv.do_process_next_default t = false := by
      by_cases he : t = msg_type.Error
      · subst he
        simp [Op_rcv.process_next, msg_type.Error, msg_type.Notice]
      · simp [Op_rcv.process_next, Ne.symm ht, Ne.symm he,
          Op_rcv.do_process_next_default]
    induction notices with
    | nil => simp [runRecv, hstop]
    | cons f fs ih =>
      have hf : f.ftype = msg_type.Notice := hall f (List.mem_cons_self f fs)
      have hfs : ∀ g ∈ fs, g.ftype = msg_type.Notice :=
        fun g hg => hall g (List.mem_cons_of_mem f hg)
      have hcont : Op_rcv.process_next Op_rcv.do_process_next_default f.ftype = true := by
        simp [Op_rcv.process_next, hf]
      have ih2 := ih hfs
      simp only [List.cons_append, runRecv, hcont, if_true]
      simp [ih2, List.append_assoc]

/-- C4: `next_msg` answers EXPECTED for the Error and Notice tags, and for
every other tag it returns the value of the `do_next_msg` override, whose
default body returns UNEXPECTED. -/
theorem C4_next_msg (dnm : Nat → Next_msg) (t : Nat) :
    Op_rcv.next_msg dnm msg_type.Error = Next_msg.EXPECTED
    ∧ Op_rcv.next_msg dnm msg_type.Notice = Next_msg.EXPECTED
    ∧ (t ≠ msg_type.Error → t ≠ msg_type.Notice →
        Op_rcv.next_msg dnm t = dnm t)
    ∧ Op_rcv.do_next_msg_default t = Next_msg.UNEXPECTED := by
  refine ⟨?_, ?_, ?_, rfl⟩
  · simp [Op_rcv.next_msg]
  · simp [Op_rcv.next_msg, msg_type.Error, msg_type.Notice]
  · intro h1 h2
    simp [Op_rcv.next_msg, h1, h2]

/-- C2: an Error frame terminates the current receive: whatever the
`do_process_next` override, `process_next` returns false after an Error,
so the trace of the receive is exactly the trace of the frames before the
Error followed by the single `error` callback — no callback fires for any
later frame — and the operation finishes with `is_done = true`. -/
theorem C2_error_terminates (dpn : Nat → Bool) (pre post : List Frame)
    (msg : Message)
    (hpre : ∀ f ∈ pre, Op_rcv.process_next dpn f.ftype = true) :
    Op_rcv.process_next dpn msg_type.Error = false
    ∧ runRecv dpn (pre ++ (Frame.mk msg_type.Error msg) :: post)
        = ((runRecv dpn pre).1
            ++ [Call.errorCb msg.errCode severity.ERROR msg.errSqlState msg.errMsg],
           true) := by
  have hstop : Op_rcv.process_next dpn msg_type.Error = false := by
    simp [Op_rcv.process_next, msg_type.Error, msg_type.Notice]
  refine ⟨hstop, ?_⟩
  induction pre with
  | nil =>
    have hpm : Op_rcv.process_msg msg_type.Error msg
        = [Call.errorCb msg.errCode severity.ERROR msg.errSqlState msg.errMsg] := by
      simp [Op_rcv.process_msg, msg_type.Error, msg_type.Notice]
    simp [runRecv, hstop, hpm]
  | cons f fs ih =>
    have hf : Op_rcv.process_next dpn f.ftype = true :=
      hpre f (List.mem_cons_self f fs)
    have hfs : ∀ g ∈ fs, Op_rcv.process_next dpn g.ftype = true :=
      fun g hg => hpre g (List.mem_cons_of_mem f hg)
    have ih2 := ih hfs
    simp only [List.cons_append, runRecv, hf, if_true]
    simp [ih2, List.append_assoc]

/-- Concrete message used by witnesses: the server-error scenario of the
specification (code 1045, SQL state 28000). -/
def msg_err : Message :=
  ⟨1045, "28000", "Access denied", 0, 0, []⟩

/-- Witness for C2: a receive whose stream holds an Error frame followed
by another frame delivers exactly the one error callback and is done. -/
theorem C2_error_terminates_witness :
    (∀ f ∈ ([] : List Frame), Op_rcv.process_next (fun _ => false) f.ftype = true)
    ∧ runRecv (fun _ => false)
        ([] ++ (Frame.mk msg_type.Error msg_err) :: [Frame.mk 0 msg_err])
        = ([Call.errorCb 1045 2 "28000" "Access denied"], true) := by
  refine ⟨by simp, ?_⟩
  have h := (C2_error_terminates (fun _ => false) [] [Frame.mk 0 msg_err]
    msg_err (by simp)).2
  simpa [runRecv, msg_err, severity.ERROR] using h

/-- State of `Op_base` relevant to deferred-error handling: the `m_error`
slot (a saved CDK error, abstracted here by its numeric code; `none` plays
the role of the null `scoped_ptr`). -/
structure Op_base_state where
  m_error : Option Nat
deriving DecidableEq

/-- Embedding of `Op_base::throw_saved_error()` (source: `result.h`,
`if (m_error) m_error->rethrow();`).  The first component is the error the
call raises (`none` when nothing is raised); the second component is the
state of the operation after the call.  The body only reads `m_error` —
it never resets the `scoped_ptr` — so the state is returned unchanged. -/
def Op_base.throw_saved_error (s : Op_base_state) : Option Nat × Op_base_state :=
  if s.m_error.isSome then (s.m_error, s) else (none, s)

/-- Counterexample to C5 as stated: for an operation holding the saved
error 1045, `throw_saved_error` raises it, yet the saved error is not
cleared, and invoking `throw_saved_error` again on the resulting state
raises the very same error a second time. -/
theorem C5_counterexample :
    (Op_base.throw_saved_error ⟨some 1045⟩).1 = some 1045
    ∧ ((Op_base.throw_saved_error ⟨some 1045⟩).2).m_error = some 1045
    ∧ (Op_base.throw_saved_error
        (Op_base.throw_saved_error ⟨some 1045⟩).2).1 = some 1045 := by
  decide

/-- C5 amended: `throw_saved_error` raises the saved error (and raises
nothing when none is saved) but does not clear it — the operation state is
unchanged, so a subsequent `cont()` or `wait()` that reaches
`throw_saved_error` on the same operation raises the same error again. -/
theorem C5_throw_saved_error_amended (s : Op_base_state) :
    (Op_base.throw_saved_error s).1 = s.m_error
    ∧ (Op_base.throw_saved_error s).2 = s
    ∧ (Op_base.throw_saved_error (Op_base.throw_saved_error s).2).1
        = s.m_error := by
  obtain ⟨e⟩ := s
  cases e <;> simp [Op_base.throw_saved_error]

/-- Stages of a receive operation (source enum in `Op_rcv`). -/
inductive Stage where
  | HEADER
  | PAYLOAD
  | DONE
deriving DecidableEq

/-- Raw-frame reading state of the protocol instance (source enum
`{ HEADER, PAYLOAD } m_msg_state` in `Protocol_impl`): whether the next
thing to read from the stream is a frame header or the payload of a frame
whose header has been decoded. -/
inductive Rd_msg_state where
  | HEADER
  | PAYLOAD
deriving DecidableEq

/-- State of an `Op_rcv` object as far as `rcv_start` is concerned: the
concrete receive-variant class it was constructed as (abstracted by a
numeric identifier), the `m_completed` flag of `Op_base`, the active
processor `m_prc` (a pointer, `none` when null) and the stage. -/
structure Op_rcv_state where
  variant : Nat
  m_completed : Bool
  m_prc : Option Nat
  m_stage : Stage
deriving DecidableEq

/-- Embedding of `Op_base::is_done()` (source:
`bool is_done() const { return is_completed(); }` and
`bool is_completed() const { return m_completed; }`). -/
def Op_base.is_done (op : Op_rcv_state) : Bool :=
  op.m_completed

/-- Embedding of the `Op_rcv` constructor: stage `HEADER`, no processor,
and `m_completed = false` from the `Op_base` constructor. -/
def Op_rcv.new (variant : Nat) : Op_rcv_state :=
  ⟨variant, false, none, Stage.HEADER⟩

/-- Modelled from the spec: `Op_rcv::resume(prc)`, which `rcv_start`
calls but whose body is not under `src/`.  Per the resume semantics of
the specification, it sets the active processor and begins a new stage at
the current `rd_msg` position — a new header when no frame is in flight,
the payload of the pending frame otherwise.  Beginning a new stage makes
the operation not-yet-completed; no stream byte is consumed and nothing is
decoded here (that happens when the caller pumps `cont`/`wait`). -/
def Op_rcv.resume (prc : Nat) (rd : Rd_msg_state) (op : Op_rcv_state) :
    Op_rcv_state :=
  { op with
      m_prc := some prc
      m_completed := false
      m_stage := match rd with
        | Rd_msg_state.HEADER => Stage.HEADER
        | Rd_msg_state.PAYLOAD => Stage.PAYLOAD }

/-- State of `Protocol_impl` relevant to `rcv_start`: the receive slot
`m_rcv_op` (a `scoped_ptr`, `none` when empty), the raw reading state
`m_msg_state`, and the position reached in the incoming stream (how many
bytes have been consumed / frames decoded), which only `cont`/`wait`
advance. -/
structure Protocol_state where
  m_rcv_op : Option Op_rcv_state
  m_msg_state : Rd_msg_state
  stream_pos : Nat
deriving DecidableEq

/-- Embedding of `Protocol_impl::rcv_start<Rcv, Prc>(prc)` (source:
`result.h`).  First, if the last receive operation is done, it is removed;
then a new receive operation of the requested variant is created if none
is active; finally the operation is resumed, starting its new stage. -/
def Protocol_impl.rcv_start (variant : Nat) (prc : Nat)
    (s : Protocol_state) : Protocol_state :=
  let s1 :=
    match s.m_rcv_op with
    | some op =>
      if Op_base.is_done op then { s with m_rcv_op := none } else s
    | none => s
  let s2 :=
    match s1.m_rcv_op with
    | some _ => s1
    | none => { s1 with m_rcv_op := some (Op_rcv.new variant) }
  match s2.m_rcv_op with
  | some op =>
    { s2 with m_rcv_op := some (Op_rcv.resume prc s2.m_msg_state op) }
  | none => s2

/-- Characterization of `rcv_start` on an empty receive slot: a fresh
operation of the requested variant is created and resumed. -/
theorem rcv_start_of_none (variant prc : Nat) (rd : Rd_msg_state) (pos : Nat) :
    Protocol_impl.rcv_start variant prc ⟨none, rd, pos⟩
      = ⟨some (Op_rcv.resume prc rd (Op_rcv.new variant)), rd, pos⟩ :=
  rfl

/-- Characterization of `rcv_start` on a finished operation: it is
discarded, and a fresh operation of the requested variant is created and
resumed. -/
theorem rcv_start_of_done (variant prc : Nat) (op : Op_rcv_state)
    (rd : Rd_msg_state) (pos : Nat) (hd : Op_base.is_done op = true) :
    Protocol_impl.rcv_start variant prc ⟨some op, rd, pos⟩
      = ⟨some (Op_rcv.resume prc rd (Op_rcv.new variant)), rd, pos⟩ := by
  simp only [Protocol_impl.rcv_start, Op_base.is_done] at *
  simp [hd]

/-- Characterization of `rcv_start` on a still-running operation: the
existing operation is kept and resumed. -/
theorem rcv_start_of_running (variant prc : Nat) (op : Op_rcv_state)
    (rd : Rd_msg_state) (pos : Nat) (hd : Op_base.is_done op = false) :
    Protocol_impl.rcv_start variant prc ⟨some op, rd, pos⟩
      = ⟨some (Op_rcv.resume prc rd op), rd, pos⟩ := by
  simp only [Protocol_impl.rcv_start, Op_base.is_done] at *
  simp [hd]

/-- A just-resumed operation has begun a new stage, so it is not done. -/
theorem is_done_resume (prc : Nat) (rd : Rd_msg_state) (op : Op_rcv_state) :
    Op_base.is_done (Op_rcv.resume prc rd op) = false :=
  rfl

/-- Resuming twice with the same processor at the same reading position is
the same as resuming once. -/
theorem resume_resume (prc : Nat) (rd : Rd_msg_state) (op : Op_rcv_state) :
    Op_rcv.resume prc rd (Op_rcv.resume prc rd op) = Op_rcv.resume prc rd op :=
  rfl

/-- C6: `rcv_start` discards the current receive operation exactly when it
exists and `is_done()` holds — in that case, and when no operation exists,
a fresh operation of the requested variant is created and resumed; when
the current operation is still running it is resumed as-is (same object,
same variant).  It never touches the reading state or consumes stream
input, and calling it twice in a row is equivalent to calling it once. -/
theorem C6_rcv_start_idempotent (variant prc : Nat) (s : Protocol_state)
    (op : Op_rcv_state) :
    (s.m_rcv_op = none →
      (Protocol_impl.rcv_start variant prc s).m_rcv_op
        = some (Op_rcv.resume prc s.m_msg_state (Op_rcv.new variant)))
    ∧ (s.m_rcv_op = some op → Op_base.is_done op = true →
      (Protocol_impl.rcv_start variant prc s).m_rcv_op
        = some (Op_rcv.resume prc s.m_msg_state (Op_rcv.new variant)))
    ∧ (s.m_rcv_op = some op → Op_base.is_done op = false →
      (Protocol_impl.rcv_start variant prc s).m_rcv_op
        = some (Op_rcv.resume prc s.m_msg_state op)
      ∧ (Op_rcv.resume prc s.m_msg_state op).variant = op.variant)
    ∧ (Protocol_impl.rcv_start variant prc s).m_msg_state = s.m_msg_state
    ∧ (Protocol_impl.rcv_start variant prc s).stream_pos = s.stream_pos
    ∧ Protocol_impl.rcv_start variant prc (Protocol_impl.rcv_start variant prc s)
        = Protocol_impl.rcv_start variant prc s := by
  obtain ⟨sl, rd, pos⟩ := s
  have hchar : ∀ t : Protocol_state,
      (t.m_rcv_op = none →
        Protocol_impl.rcv_start variant prc t
          = ⟨some (Op_rcv.resume prc t.m_msg_state (Op_rcv.new variant)),
             t.m_msg_state, t.stream_pos⟩)
      ∧ (∀ o, t.m_rcv_op = some o →
          (Op_base.is_done o = true →
            Protocol_impl.rcv_start variant prc t
              = ⟨some (Op_rcv.resume prc t.m_msg_state (Op_rcv.new variant)),
                 t.m_msg_state, t.stream_pos⟩)
          ∧ (Op_base.is_done o = false →
            Protocol_impl.rcv_start variant prc t
              = ⟨some (Op_rcv.resume prc t.m_msg_state o),
                 t.m_msg_state, t.stream_pos⟩)) := by
    rintro ⟨tsl, trd, tpos⟩
    refine ⟨?_, ?_⟩
    · rintro rfl
      exact rcv_start_of_none variant prc trd tpos
    · rintro o rfl
      exact ⟨rcv_start_of_done variant prc o trd tpos,
             rcv_start_of_running variant prc o trd tpos⟩
  refine ⟨?_, ?_, ?_, ?_, ?_, ?_⟩
  · intro h
    rw [(hchar _).1 h]
  · intro h hd
    rw [((hchar _).2 op h).1 hd]
  · intro h hd
    rw [((hchar _).2 op h).2 hd]
    exact ⟨rfl, rfl⟩
  · cases sl with
    | none => rw [(hchar ⟨none, rd, pos⟩).1 rfl]
    | some op2 =>
      rcases Bool.eq_false_or_eq_true (Op_base.is_done op2) with hd | hd
      · rw [((hchar ⟨some op2, rd, pos⟩).2 op2 rfl).1 hd]
      · rw [((hchar ⟨some op2, rd, pos⟩).2 op2 rfl).2 hd]
  · cases sl with
    | none => rw [(hchar ⟨none, rd, pos⟩).1 rfl]
    | some op2 =>
      rcases Bool.eq_false_or_eq_true (Op_base.is_done op2) with hd | hd
      · rw [((hchar ⟨some op2, rd, pos⟩).2 op2 rfl).1 hd]
      · rw [((hchar ⟨some op2, rd, pos⟩).2 op2 rfl).2 hd]
  · have hstep : ∀ o : Op_rcv_state,
        Protocol_impl.rcv_start variant prc
            ⟨some (Op_rcv.resume prc rd o), rd, pos⟩
          = ⟨some (Op_rcv.resume prc rd o), rd, pos⟩ := by
      intro o
      rw [((hchar ⟨some (Op_rcv.resume prc rd o), rd, pos⟩).2
            (Op_rcv.resume prc rd o) rfl).2 (is_done_resume prc rd o)]
      rw [resume_resume]
    cases sl with
    | none =>
      rw [(hchar ⟨none, rd, pos⟩).1 rfl]
      exact hstep (Op_rcv.new variant)
    | some op2 =>
      rcases Bool.eq_false_or_eq_true (Op_base.is_done op2) with hd | hd
      · rw [((hchar ⟨some op2, rd, pos⟩).2 op2 rfl).1 hd]
        exact hstep (Op_rcv.new variant)
      · rw [((hchar ⟨some op2, rd, pos⟩).2 op2 rfl).2 hd]
        exact hstep op2

/-- Witness for C6: a state holding a finished receive operation (variant
3, completed) satisfies the discard hypothesis, and `rcv_start` replaces
it with a freshly created, resumed operation of the requested variant 7. -/
theorem C6_rcv_start_idempotent_witness :
    ((⟨some ⟨3, true, some 9, Stage.DONE⟩, Rd_msg_state.HEADER, 42⟩ :
        Protocol_state).m_rcv_op = some ⟨3, true, some 9, Stage.DONE⟩
      ∧ Op_base.is_done ⟨3, true, some 9, Stage.DONE⟩ = true)
    ∧ (Protocol_impl.rcv_start 7 5
        ⟨some ⟨3, true, some 9, Stage.DONE⟩, Rd_msg_state.HEADER, 42⟩).m_rcv_op
        = some (Op_rcv.resume 5 Rd_msg_state.HEADER (Op_rcv.new 7)) := by
  refine ⟨⟨rfl, rfl⟩, ?_⟩
  exact (C6_rcv_start_idempotent 7 5
    ⟨some ⟨3, true, some 9, Stage.DONE⟩, Rd_msg_state.HEADER, 42⟩
    ⟨3, true, some 9, Stage.DONE⟩).2.1 rfl rfl

/-- The two protocol sides (source enum `Protocol_side { SERVER, CLIENT }`);
`m_side` is the side from which the instance receives messages. -/
inductive Protocol_side where
  | SERVER
  | CLIENT
deriving DecidableEq

/-- Modelled from the spec: the server half of the `MSG_LIST` table (the
X-macro that enumerates protocol messages lives in a generated header, not
under `src/`).  These are the type tags of the messages the engine can
receive from a server: Ok, Error, the capabilities responses, the
authentication continuation and success, Notice, the result-set messages
and the statement-execute acknowledgement.  The numeric tags stand in for
the schema-defined ones; only their distinctness matters here. -/
def server_msg_list : List Nat :=
  [0, 1, 2, 3, 4, 5, 11, 12, 13, 14, 16, 17]

/-- Modelled from the spec: the client half of the `MSG_LIST` table — type
tags of messages receivable from a client: the capabilities get/set
requests, authentication start/continue, session reset/close, statement
execute, the four CRUD commands and expectation open/close. -/
def client_msg_list : List Nat :=
  [1, 2, 4, 5, 6, 7, 12, 17, 18, 19, 20, 24, 25]

/-- Embedding of `Message_dispatcher::process_msg_with(type, msg, prc)`
(source: `result.h`): a switch on `m_side` selecting the half of the
message table, then a switch on the type tag with one generated case per
message of that half (each case downcasts and calls the per-message
`process_msg_with` thunk, represented here by the tag of the dispatched
case), and a default arm that throws "unknown server message type".
The cases are modelled from the spec's `MSG_LIST` contents. -/
def Message_dispatcher.process_msg_with (side : Protocol_side) (t : Nat) :
    Except String Nat :=
  match side with
  | Protocol_side.SERVER =>
    if t = 0 then Except.ok 0
    else if t = 1 then Except.ok 1
    else if t = 2 then Except.ok 2
    else if t = 3 then Except.ok 3
    else if t = 4 then Except.ok 4
    else if t = 5 then Except.ok 5
    else if t = 11 then Except.ok 11
    else if t = 12 then Except.ok 12
    else if t = 13 then Except.ok 13
    else if t = 14 then Except.ok 14
    else if t = 16 then Except.ok 16
    else if t = 17 then Except.ok 17
    else Except.error "unknown server message type"
  | Protocol_side.CLIENT =>
    if t = 1 then Except.ok 1
    else if t = 2 then Except.ok 2
    else if t = 4 then Except.ok 4
    else if t = 5 then Except.ok 5
    else if t = 6 then Except.ok 6
    else if t = 7 then Except.ok 7
    else if t = 12 then Except.ok 12
    else if t = 17 then Except.ok 17
    else if t = 18 then Except.ok 18
    else if t = 19 then Except.ok 19
    else if t = 20 then Except.ok 20
    else if t = 24 then Except.ok 24
    else if t = 25 then Except.ok 25
    else Except.error "unknown server message type"

/-- C7: per direction the dispatch switch is total over that direction's
message table — every listed tag is dispatched to its case — and every
tag outside the table falls to the default arm, which raises the
unknown-message error. -/
theorem C7_dispatch_total (t : Nat) :
    (t ∈ server_msg_list →
      Message_dispatcher.process_msg_with Protocol_side.SERVER t = Except.ok t)
    ∧ (t ∉ server_msg_list →
      Message_dispatcher.process_msg_with Protocol_side.SERVER t
        = Except.error "unknown server message type")
    ∧ (t ∈ client_msg_list →
      Message_dispatcher.process_msg_with Protocol_side.CLIENT t = Except.ok t)
    ∧ (t ∉ client_msg_list →
      Message_dispatcher.process_msg_with Protocol_side.CLIENT t
        = Except.error "unknown server message type") := by
  refine ⟨?_, ?_, ?_, ?_⟩
  · intro h
    fin_cases h <;> rfl
  · intro h
    simp only [server_msg_list, List.mem_cons, List.not_mem_nil, or_false,
      not_or] at h
    obtain ⟨h0, h1, h2, h3, h4, h5, h11, h12, h13, h14, h16, h17⟩ := h
    simp [Message_dispatcher.process_msg_with,
      h0, h1, h2, h3, h4, h5, h11, h12, h13, h14, h16, h17]
  · intro h
    fin_cases h <;> rfl
  · intro h
    simp only [client_msg_list, List.mem_cons, List.not_mem_nil, or_false,
      not_or] at h
    obtain ⟨h1, h2, h4, h5, h6, h7, h12, h17, h18, h19, h20, h24, h25⟩ := h
    simp [Message_dispatcher.process_msg_with,
      h1, h2, h4, h5, h6, h7, h12, h17, h18, h19, h20, h24, h25]

/-- Witness for C7: tag 1 (Error) is in the server table and dispatches to
its case; tag 9 is in neither table and raises the unknown-message error
on both sides. -/
theorem C7_dispatch_total_witness :
    ((1 : Nat) ∈ server_msg_list
      ∧ Message_dispatcher.process_msg_with Protocol_side.SERVER 1
          = Except.ok 1)
    ∧ ((9 : Nat) ∉ server_msg_list
      ∧ Message_dispatcher.process_msg_with Protocol_side.SERVER 9
          = Except.error "unknown server message type")
    ∧ ((9 : Nat) ∉ client_msg_list
      ∧ Message_dispatcher.process_msg_with Protocol_side.CLIENT 9
          = Except.error "unknown server message type") :=
  ⟨⟨by decide, (C7_dispatch_total 1).1 (by decide)⟩,
   ⟨by decide, (C7_dispatch_total 9).2.1 (by decide)⟩,
   ⟨by decide, (C7_dispatch_total 9).2.2.2 (by decide)⟩⟩

/-- Witness for C3: tag 5 is neither Notice nor Error, and with a
`do_process_next` override answering true, `process_next` returns that
override's answer; with the default override, a receive holding one Notice
and then a tag-5 frame stops right after the tag-5 frame. -/
theorem C3_process_next_witness :
    ((5 : Nat) ≠ msg_type.Notice ∧ (5 : Nat) ≠ msg_type.Error)
    ∧ Op_rcv.process_next (fun _ => true) 5 = true
    ∧ ((∀ f ∈ [Frame.mk msg_type.Notice msg_err], f.ftype = msg_type.Notice)
      ∧ runRecv Op_rcv.do_process_next_default
          ([Frame.mk msg_type.Notice msg_err] ++ (Frame.mk 5 msg_err) :: [])
          = ((runRecv Op_rcv.do_process_next_default
                [Frame.mk msg_type.Notice msg_err]).1
              ++ Op_rcv.process_msg 5 msg_err, true)) := by
  refine ⟨⟨by decide, by decide⟩, ?_, by decide, ?_⟩
  · simpa using (C3_process_next (fun _ => true) 5).2.1 (by decide) (by decide)
  · exact (C3_process_next (fun _ => true) 5).2.2.2
      [Frame.mk msg_type.Notice msg_err] [] msg_err (by decide) (by decide)

/-- Witness for C4: tag 5 is neither Error nor Notice, and `next_msg`
returns the override's answer (here STOP) for it. -/
theorem C4_next_msg_witness :
    ((5 : Nat) ≠ msg_type.Error ∧ (5 : Nat) ≠ msg_type.Notice)
    ∧ Op_rcv.next_msg (fun _ => Next_msg.STOP) 5 = Next_msg.STOP := by
  refine ⟨⟨by decide, by decide⟩, ?_⟩
  simpa using
    (C4_next_msg (fun _ => Next_msg.STOP) 5).2.2.1 (by decide) (by decide)

/-- Length of a mysqlx message header (source constant
`header_length = 5`). -/
def header_length : Nat := 5

/-- Maximum size of the internal buffer used to send messages (source
constant `max_wr_size = 1024*1024*1024`, one GiB). -/
def max_wr_size : Nat := 1024 * 1024 * 1024

/-- Maximum size of the internal buffer used to receive messages (source:
`max_rd_size = max_wr_size`). -/
def max_rd_size : Nat := max_wr_size

/-- Framing error kinds relevant to header validation: a malformed frame
(declared size 0) and an oversized frame (declared size above the cap). -/
inductive Frame_error where
  | Frame
  | Oversize
deriving DecidableEq

/-- Modelled from the spec: the size validation done when a frame header
is decoded (`read_header` is declared in the header but its body is not
under `src/`).  A declared size of 0 is a framing error and a declared
size above `max_rd_size` is an oversize error; otherwise the frame is
admitted with payload size `size - 1` (the 4-byte size field counts the
1-byte type tag). -/
def read_header_check (size : Nat) : Except Frame_error Nat :=
  if size = 0 then Except.error Frame_error.Frame
  else if max_rd_size < size then Except.error Frame_error.Oversize
  else Except.ok (size - 1)

/-- Modelled from the spec: `Protocol_impl::resize_buf` (declared in the
header, body not under `src/`).  The buffer starts small and grows on
demand, never beyond the 1 GiB cap and never shrinking; a request beyond
the cap fails and leaves the buffer as it was.  The first component tells
whether the request succeeded, the second is the buffer size after the
call. -/
def resize_buf (cur new_size : Nat) : Bool × Nat :=
  if new_size ≤ max_rd_size then (true, max cur new_size)
  else (false, cur)

/-- C8: the frame-size cap is 1 GiB = 2^30 bytes; a header declaring
size 0 or size above the cap is rejected as an error, any other size is
admitted with payload size `size - 1`, and buffer growth keeps the buffer
within the cap — no buffer larger than `max_rd_size` is ever produced. -/
theorem C8_frame_size_bounded (size cur : Nat) :
    max_rd_size = 2 ^ 30
    ∧ max_wr_size = 2 ^ 30
    ∧ read_header_check 0 = Except.error Frame_error.Frame
    ∧ (max_rd_size < size →
        read_header_check size = Except.error Frame_error.Oversize)
    ∧ (0 < size → size ≤ max_rd_size →
        read_header_check size = Except.ok (size - 1))
    ∧ (cur ≤ max_rd_size → (resize_buf cur size).2 ≤ max_rd_size) := by
  refine ⟨by norm_num [max_rd_size, max_wr_size], by norm_num [max_wr_size],
    rfl, ?_, ?_, ?_⟩
  · intro h
    have h0 : size ≠ 0 := by
      intro e
      rw [e] at h
      exact Nat.not_lt_zero _ h
    simp [read_header_check, h0, h]
  · intro h0 h1
    have e0 : size ≠ 0 := Nat.pos_iff_ne_zero.mp h0
    have e1 : ¬ max_rd_size < size := Nat.not_lt.mpr h1
    simp [read_header_check, e0, e1]
  · intro hcur
    by_cases h : size ≤ max_rd_size
    · have e : (resize_buf cur size).2 = max cur size := by
        simp [resize_buf, h]
      rw [e]
      exact max_le hcur h
    · have e : (resize_buf cur size).2 = cur := by
        simp [resize_buf, h]
      rw [e]
      exact hcur

/-- Witness for C8: the oversize scenario of the specification — a header
declaring size 2^30 + 1 is rejected, and that request does not grow an
empty buffer at all; a well-formed size 6 is admitted with payload 5. -/
theorem C8_frame_size_bounded_witness :
    max_rd_size < 2 ^ 30 + 1
    ∧ read_header_check (2 ^ 30 + 1) = Except.error Frame_error.Oversize
    ∧ (0 : Nat) < 6 ∧ (6 : Nat) ≤ max_rd_size
    ∧ read_header_check 6 = Except.ok 5
    ∧ (0 : Nat) ≤ max_rd_size
    ∧ (resize_buf 0 (2 ^ 30 + 1)).2 ≤ max_rd_size := by
  have h1 : max_rd_size < 2 ^ 30 + 1 := by
    norm_num [max_rd_size, max_wr_size]
  have h2 : (6 : Nat) ≤ max_rd_size := by
    norm_num [max_rd_size, max_wr_size]
  refine ⟨h1, (C8_frame_size_bounded (2 ^ 30 + 1) 0).2.2.2.1 h1, by decide,
    h2, ?_, Nat.zero_le _, (C8_frame_size_bounded (2 ^ 30 + 1) 0).2.2.2.2.2
      (Nat.zero_le _)⟩
  exact (C8_frame_size_bounded 6 0).2.2.2.2.1 (by decide) h2

/-- Interface `Scalar_processor` (source:
`mysqlx_expr.h`): one pure-virtual callback per scalar kind.  Each
callback becomes a state-transformer field over an abstract state type
`s`; byte sequences become `List Nat`, the charset id a `Nat`, `int64_t`
an `Int`, `uint64_t` a `Nat`, and the `float` / `double` arguments values
of abstract types `F` / `D` (the wrappers only pass them through). -/
structure Scalar_processor (s F D : Type) where
  null : s → s
  str : List Nat → s → s
  str_cs : Nat → List Nat → s → s
  num_int : Int → s → s
  num_uint : Nat → s → s
  num_float : F → s → s
  num_double : D → s → s
  yesno : Bool → s → s
  octets : List Nat → s → s

/-- Interface `Expr_processor` (source: `mysqlx_expr.h`).  The
processor-returning callbacks `val`, `op` and `call` yield a possibly-null
pointer (`Option`) to a value / argument-list processor alongside the
state; `AP` is the abstract argument-list processor type (`Args_prc`),
`DbObj` the database-object reference type, `Path` the document-path type.
The three C++ `id` overloads and three `placeholder` overloads get
distinct field names. -/
structure Expr_processor (s F D AP DbObj Path : Type) where
  val : s → s × Option (Scalar_processor s F D)
  op : String → s → s × Option AP
  call : DbObj → s → s × Option AP
  var : String → s → s
  id_tab : String → Option DbObj → s → s
  id_tab_path : String → Option DbObj → Path → s → s
  id_doc : Path → s → s
  plh : s → s
  plh_name : String → s → s
  plh_pos : Nat → s → s

/-- Embedding of `Safe_prc<Scalar_processor>` (source: `mysqlx_expr.h`):
each wrapper callback forwards to the same callback of the wrapped
processor when the `m_prc` pointer is non-null, and does nothing
otherwise (`return m_prc ? m_prc->cb(args) : (void)NULL`).  The wrapped
(possibly null) pointer is the `Option` argument `m_prc`. -/
def Safe_prc_scalar {s F D : Type} (m_prc : Option (Scalar_processor s F D)) :
    Scalar_processor s F D where
  null := fun st => match m_prc with
    | some prc => prc.null st
    | none => st
  str := fun v st => match m_prc with
    | some prc => prc.str v st
    | none => st
  str_cs := fun cs v st => match m_prc with
    | some prc => prc.str_cs cs v st
    | none => st
  num_int := fun v st => match m_prc with
    | some prc => prc.num_int v st
    | none => st
  num_uint := fun v st => match m_prc with
    | some prc => prc.num_uint v st
    | none => st
  num_float := fun v st => match m_prc with
    | some prc => prc.num_float v st
    | none => st
  num_double := fun v st => match m_prc with
    | some prc => prc.num_double v st
    | none => st
  yesno := fun v st => match m_prc with
    | some prc => prc.yesno v st
    | none => st
  octets := fun v st => match m_prc with
    | some prc => prc.octets v st
    | none => st

/-- Embedding of `Safe_prc<Expr_processor>` (source: `mysqlx_expr.h`):
void callbacks forward when `m_prc` is non-null and do nothing otherwise;
the processor-returning callbacks `val`, `op` and `call` forward and
return the wrapped processor's result when `m_prc` is non-null, and
return NULL (here `none`) otherwise. -/
def Safe_prc_expr {s F D AP DbObj Path : Type}
    (m_prc : Option (Expr_processor s F D AP DbObj Path)) :
    Expr_processor s F D AP DbObj Path where
  val := fun st => match m_prc with
    | some prc => prc.val st
    | none => (st, none)
  op := fun name st => match m_prc with
    | some prc => prc.op name st
    | none => (st, none)
  call := fun obj st => match m_prc with
    | some prc => prc.call obj st
    | none => (st, none)
  var := fun name st => match m_prc with
    | some prc => prc.var name st
    | none => st
  id_tab := fun name obj st => match m_prc with
    | some prc => prc.id_tab name obj st
    | none => st
  id_tab_path := fun name obj path st => match m_prc with
    | some prc => prc.id_tab_path name obj path st
    | none => st
  id_doc := fun path st => match m_prc with
    | some prc => prc.id_doc path st
    | none => st
  plh := fun st => match m_prc with
    | some prc => prc.plh st
    | none => st
  plh_name := fun name st => match m_prc with
    | some prc => prc.plh_name name st
    | none => st
  plh_pos := fun pos st => match m_prc with
    | some prc => prc.plh_pos pos st
    | none => st

/-- C9: every `Safe_prc` callback over `Scalar_processor` and
`Expr_processor` is a no-op when the wrapped pointer is null — the state
is unchanged and the processor-returning callbacks `val`, `op` and `call`
return NULL — and otherwise forwards to exactly the same callback of the
wrapped processor with unchanged arguments. -/
theorem C9_safe_prc_forwarding (s F D AP DbObj Path : Type)
    (p : Scalar_processor s F D) (q : Expr_processor s F D AP DbObj Path)
    (st : s) (v : List Nat) (cs : Nat) (i : Int) (u : Nat) (fv : F) (dv : D)
    (b : Bool) (name : String) (obj : DbObj) (oobj : Option DbObj)
    (path : Path) (pos : Nat) :
    ((Safe_prc_scalar (none : Option (Scalar_processor s F D))).null st = st
      ∧ (Safe_prc_scalar (none : Option (Scalar_processor s F D))).str v st = st
      ∧ (Safe_prc_scalar (none : Option (Scalar_processor s F D))).str_cs cs v st = st
      ∧ (Safe_prc_scalar (none : Option (Scalar_processor s F D))).num_int i st = st
      ∧ (Safe_prc_scalar (none : Option (Scalar_processor s F D))).num_uint u st = st
      ∧ (Safe_prc_scalar (none : Option (Scalar_processor s F D))).num_float fv st = st
      ∧ (Safe_prc_scalar (none : Option (Scalar_processor s F D))).num_double dv st = st
      ∧ (Safe_prc_scalar (none : Option (Scalar_processor s F D))).yesno b st = st
      ∧ (Safe_prc_scalar (none : Option (Scalar_processor s F D))).octets v st = st)
    ∧ ((Safe_prc_scalar (some p)).null st = p.null st
      ∧ (Safe_prc_scalar (some p)).str v st = p.str v st
      ∧ (Safe_prc_scalar (some p)).str_cs cs v st = p.str_cs cs v st
      ∧ (Safe_prc_scalar (some p)).num_int i st = p.num_int i st
      ∧ (Safe_prc_scalar (some p)).num_uint u st = p.num_uint u st
      ∧ (Safe_prc_scalar (some p)).num_float fv st = p.num_float fv st
      ∧ (Safe_prc_scalar (some p)).num_double dv st = p.num_double dv st
      ∧ (Safe_prc_scalar (some p)).yesno b st = p.yesno b st
      ∧ (Safe_prc_scalar (some p)).octets v st = p.octets v st)
    ∧ ((Safe_prc_expr (none : Option (Expr_processor s F D AP DbObj Path))).val st
            = (st, none)
      ∧ (Safe_prc_expr (none : Option (Expr_processor s F D AP DbObj Path))).op name st
            = (st, none)
      ∧ (Safe_prc_expr (none : Option (Expr_processor s F D AP DbObj Path))).call obj st
            = (st, none)
      ∧ (Safe_prc_expr (none : Option (Expr_processor s F D AP DbObj Path))).var name st = st
      ∧ (Safe_prc_expr (none : Option (Expr_processor s F D AP DbObj Path))).id_tab name oobj st = st
      ∧ (Safe_prc_expr (none : Option (Expr_processor s F D AP DbObj Path))).id_tab_path name oobj path st = st
      ∧ (Safe_prc_expr (none : Option (Expr_processor s F D AP DbObj Path))).id_doc path st = st
      ∧ (Safe_prc_expr (none : Option (Expr_processor s F D AP DbObj Path))).plh st = st
      ∧ (Safe_prc_expr (none : Option (Expr_processor s F D AP DbObj Path))).plh_name name st = st
      ∧ (Safe_prc_expr (none : Option (Expr_processor s F D AP DbObj Path))).plh_pos pos st = st)
    ∧ ((Safe_prc_expr (some q)).val st = q.val st
      ∧ (Safe_prc_expr (some q)).op name st = q.op name st
      ∧ (Safe_prc_expr (some q)).call obj st = q.call obj st
      ∧ (Safe_prc_expr (some q)).var name st = q.var name st
      ∧ (Safe_prc_expr (some q)).id_tab name oobj st = q.id_tab name oobj st
      ∧ (Safe_prc_expr (some q)).id_tab_path name oobj path st
            = q.id_tab_path name oobj path st
      ∧ (Safe_prc_expr (some q)).id_doc path st = q.id_doc path st
      ∧ (Safe_prc_expr (some q)).plh st = q.plh st
      ∧ (Safe_prc_expr (some q)).plh_name name st = q.plh_name name st
      ∧ (Safe_prc_expr (some q)).plh_pos pos st = q.plh_pos pos st) :=
  ⟨⟨rfl, rfl, rfl, rfl, rfl, rfl, rfl, rfl, rfl⟩,
   ⟨rfl, rfl, rfl, rfl, rfl, rfl, rfl, rfl, rfl⟩,
   ⟨rfl, rfl, rfl, rfl, rfl, rfl, rfl, rfl, rfl, rfl⟩,
   ⟨rfl, rfl, rfl, rfl, rfl, rfl, rfl, rfl, rfl, rfl⟩⟩

/-- The fields of `BaseResult` touched by `init` (source: `result.h`,
DevAPI part): the pointer to the hidden implementation (`none` for NULL),
the ownership flag, and the row position. -/
structure BaseResult where
  m_impl : Option Nat
  m_owns_impl : Bool
  m_pos : Nat
deriving DecidableEq

/-- Embedding of `BaseResult::init(BaseResult &&other)` (source:
`result.h`).  The destination's position is reset to 0 and its
implementation pointer set to the source's; if the source did not own the
implementation the destination does not either, otherwise the destination
takes ownership and the source loses it.  Returns the pair (destination
after, source after). -/
def BaseResult.init (dst src : BaseResult) : BaseResult × BaseResult :=
  if !src.m_owns_impl then
    ({ dst with m_pos := 0, m_impl := src.m_impl, m_owns_impl := false },
     src)
  else
    ({ dst with m_pos := 0, m_impl := src.m_impl, m_owns_impl := true },
     { src with m_owns_impl := false })

/-- C10: after `init(move(other))` the destination's position is 0, its
implementation pointer is the source's previous pointer, the destination
owns the implementation exactly when the source owned it before, the
source no longer owns it, and at most one of the two objects owns it. -/
theorem C10_init_ownership (dst src : BaseResult) :
    (BaseResult.init dst src).1.m_pos = 0
    ∧ (BaseResult.init dst src).1.m_impl = src.m_impl
    ∧ (BaseResult.init dst src).1.m_owns_impl = src.m_owns_impl
    ∧ (BaseResult.init dst src).2.m_owns_impl = false
    ∧ ¬((BaseResult.init dst src).1.m_owns_impl = true
        ∧ (BaseResult.init dst src).2.m_owns_impl = true) := by
  obtain ⟨i, o, p⟩ := src
  cases o <;> simp [BaseResult.init]
